import Mathlib

/-!
Verification development for the `fetch` unit of llrt (`src/http/fetch.rs`).

The unit registers a global `fetch` function. Per invocation it resolves the
effective URL, HTTP method, headers and body from a primary argument (a URL
string or an options object) and an optional secondary options object, checks
the resolved URI against an access gate, and dispatches the request over a
shared HTTP client.

External collaborators (the scripting engine's accessors, the header
collection `Headers::from_value`, the byte extractor `get_bytes`, the URI
parser, the access check `ensure_url_access`, and the network client) are
modelled at their boundary: conversions through a `ConvVal` value that is
either well formed or malformed, and the parser / gate / client as function
parameters of the dispatch pipeline.
-/

set_option autoImplicit false

namespace LlrtFetch

/-- HTTP methods accepted by the fetch unit (the subset of `hyper::Method`
matched in `fetch.rs` lines 115-130). -/
inductive Method where
  | GET
  | POST
  | PUT
  | CONNECT
  | HEAD
  | PATCH
  | DELETE
deriving DecidableEq, Repr

/-- Textual rendering of a method, mirroring `hyper::Method::to_string`. -/
def Method.toString : Method → String
  | .GET => "GET"
  | .POST => "POST"
  | .PUT => "PUT"
  | .CONNECT => "CONNECT"
  | .HEAD => "HEAD"
  | .PATCH => "PATCH"
  | .DELETE => "DELETE"

/-- Errors raised to the caller, mirroring `Exception::throw_reference` and
`Exception::throw_type` of rquickjs as used in `fetch.rs`. -/
inductive FetchError where
  | referenceError (msg : String)
  | typeError (msg : String)
deriving DecidableEq, Repr

/-- Header collection: the boundary view of the `Headers` collaborator is an
insertion-ordered list of name-value text pairs (spec section 6). -/
structure Headers where
  pairs : List (String × String)
deriving DecidableEq, Repr

/-- Request body: the boundary view of a `hyper::Body` built from bytes. -/
structure Body where
  bytes : List Nat
deriving DecidableEq, Repr

/-- Empty body, mirroring `Body::empty()`. -/
def Body.empty : Body := ⟨[]⟩

/-- A script value to be converted by an external collaborator: it is either
well formed (carrying the converted result) or malformed (carrying the error
text the collaborator reports). This models the boundary of
`Headers::from_value` and `get_bytes` without fixing their internals. -/
inductive ConvVal (α : Type) where
  | good (a : α)
  | bad (msg : String)
deriving DecidableEq, Repr

/-- Boundary model of the header collaborator constructor
`Headers::from_value`: succeeds on a well formed value, fails with a type
error on a malformed one. -/
def Headers.from_value : ConvVal Headers → Except FetchError Headers
  | .good h => .ok h
  | .bad m => .error (.typeError m)

/-- Boundary model of the byte-extraction collaborator `get_bytes` composed
with `Body::from`: succeeds on a convertible value, fails on an
unconvertible one. -/
def get_bytes : ConvVal Body → Except FetchError Body
  | .good b => .ok b
  | .bad m => .error (.typeError m)

/-- An options object as consumed by the fetch closure: the four properties
it reads (`url`, `method`, `headers`, `body`), each optional. `url` and
`method` are already coerced to text by the engine's accessors; `headers`
and `body` are raw values still to be converted. -/
structure JSObject where
  url : Option String
  method : Option String
  headers : Option (ConvVal Headers)
  body : Option (ConvVal Body)
deriving DecidableEq, Repr

/-- A script value as classified by `get_url_options`: a string, an object,
or anything else (number, boolean, null, undefined), which the code treats
as neither. -/
inductive JSValue where
  | str (s : String)
  | obj (o : JSObject)
  | num (n : Int)
  | bool (b : Bool)
  | null
  | undefined
deriving DecidableEq, Repr

/-- A parsed URI as produced by the external `Uri` parser; its internal
structure is opaque to this unit, so it is modelled as wrapped text. -/
structure Uri where
  text : String
deriving DecidableEq, Repr

/-- Raw protocol response from the network client, opaque to this unit. -/
structure NetResponse where
  status : Nat
deriving DecidableEq, Repr

/-- The outbound request handed to the shared client: method, URI, the header
list in application order, and the body. -/
structure OutboundRequest where
  method : Method
  uri : Uri
  headers : List (String × String)
  body : Body
deriving DecidableEq, Repr

/-- Arguments of `ResponseData::new(ctx, res, method_string, url, start)`:
the raw response, the request method text, the request url text, and the
start timestamp. -/
structure ResponseData where
  response : NetResponse
  method : String
  url : String
  start : Nat
deriving DecidableEq, Repr

/-- Elapsed time of a completed exchange measured from the recorded start
timestamp, as an integer so that non-negativity is a real statement. -/
def ResponseData.elapsed (rd : ResponseData) (endTime : Nat) : Int :=
  (endTime : Int) - (rd.start : Int)

/-- Observable events of one fetch invocation: a call of the access gate
`ensure_url_access` with a URI, and a network dispatch over the shared
client. -/
inductive Event where
  | gateCall (uri : Uri)
  | netDispatch (req : OutboundRequest)
deriving DecidableEq, Repr

/-- Decides whether an event is an access-gate call. -/
def Event.isGate : Event → Bool
  | .gateCall _ => true
  | .netDispatch _ => false

/-- Decides whether an event is a network dispatch. -/
def Event.isNet : Event → Bool
  | .gateCall _ => false
  | .netDispatch _ => true

/-- Modelled from the spec: `VERSION` is the runtime's build-time version
string, defined outside this unit; its value is irrelevant to every claim. -/
def VERSION : String := "llrt-version"

/-- Translation of `get_url_options` (`fetch.rs` lines 171-180): a string
resource is the URL candidate with no options object; an object resource is
an options object with no direct URL; anything else yields neither. -/
def get_url_options (resource : JSValue) :
    Option (Except FetchError String) × Option JSObject :=
  match resource with
  | .str s => (some (.ok s), none)
  | .obj o => (none, some o)
  | _ => (none, none)

/-- Translation of the method match (`fetch.rs` lines 115-130). An absent
field or `"GET"` yields GET; the six other literals yield their method; any
other string falls to the default arm, whose message appends
`m.unwrap_or("\x7bempty\x7d")` where `m` is necessarily `some s`. -/
def resolveMethod (m : Option String) : Except FetchError Method :=
  match m with
  | none => .ok .GET
  | some s =>
    if s = "GET" then .ok .GET
    else if s = "POST" then .ok .POST
    else if s = "PUT" then .ok .PUT
    else if s = "CONNECT" then .ok .CONNECT
    else if s = "HEAD" then .ok .HEAD
    else if s = "PATCH" then .ok .PATCH
    else if s = "DELETE" then .ok .DELETE
    else .error (.typeError ("Invalid HTTP method: " ++ Option.getD (some s) "\x7bempty\x7d"))

instance {ε α : Type} [DecidableEq ε] [DecidableEq α] : DecidableEq (Except ε α) := fun x y =>
  match x, y with
  | .ok a, .ok b =>
    if h : a = b then .isTrue (by rw [h]) else .isFalse (by intro hc; cases hc; exact h rfl)
  | .error a, .error b =>
    if h : a = b then .isTrue (by rw [h]) else .isFalse (by intro hc; cases hc; exact h rfl)
  | .ok _, .error _ => .isFalse (by intro hc; cases hc)
  | .error _, .ok _ => .isFalse (by intro hc; cases hc)

/-- The fully resolved per-call state after the synchronous part of the fetch
closure (`fetch.rs` lines 79-131): the URL candidate (`Option<Result<String>>`),
and the stored outcomes for method, headers and body. -/
structure Resolved where
  url : Option (Except FetchError String)
  method : Except FetchError Method
  headers : Option (Except FetchError Headers)
  body : Except FetchError Body
deriving DecidableEq, Repr

/-- Translation of the synchronous resolution (`fetch.rs` lines 79-131):
defaults, classification of the primary argument through `get_url_options`,
the secondary object, the exclusive source selection
`resource_options.or(options)`, and the field reads from the effective
options object. -/
def resolve (resource : JSValue) (args : Option JSValue) : Resolved :=
  let method : Except FetchError Method := .ok .GET
  let body : Except FetchError Body := .ok Body.empty
  let headers : Option (Except FetchError Headers) := none
  let (url, resource_options) := get_url_options resource
  let options : Option JSObject :=
    match args with
    | some v =>
      match v with
      | .obj o => some o
      | _ => none
    | none => none
  let options := resource_options.or options
  match options with
  | none => ⟨url, method, headers, body⟩
  | some opts =>
    let headers := opts.headers.map (fun hv => Headers.from_value hv)
    let body :=
      match opts.body with
      | some bv => get_bytes bv
      | none => body
    let url :=
      match opts.url with
      | some u => some (.ok u)
      | none => url
    let method := resolveMethod opts.method
    ⟨url, method, headers, body⟩

/-- Translation of the header application loop (`fetch.rs` lines 151-155):
absent headers contribute nothing, a stored headers error is raised by the
`headers?` at the loop head, a stored success contributes its pairs. -/
def extraHeaders : Option (Except FetchError Headers) →
    Except FetchError (List (String × String))
  | none => .ok []
  | some (.error e) => .error e
  | some (.ok h) => .ok h.pairs

/-- Stages of the async block before the gate (`fetch.rs` lines 134-141):
the missing-url default and `?`, the URI parse, and `let method = method?`,
in that order; on success it yields the url text, the parsed URI and the
method. -/
def preGate (parse : String → Except FetchError Uri) (r : Resolved) :
    Except FetchError (String × Uri × Method) :=
  match r.url.getD (.error (.referenceError "Missing required url")) with
  | .error e => .error e
  | .ok url =>
    match parse url with
    | .error e => .error e
    | .ok uri =>
      match r.method with
      | .error e => .error e
      | .ok m => .ok (url, uri, m)

/-- Fixed headers set on every outbound request by the builder
(`fetch.rs` lines 148-149): the identifying user-agent and the wildcard
accept header. -/
def baseHeaders : List (String × String) :=
  [("user-agent", "llrt " ++ VERSION), ("accept", "*/*")]

/-- Stages of the async block from the gate on (`fetch.rs` lines 143-164):
the `ensure_url_access` call, request construction with the fixed
`user-agent` and `accept` headers followed by the resolved headers, the
body attachment, the client dispatch, and on success the `ResponseData`
construction from the raw response, the method text, the url text and the
start timestamp. -/
def postGate (gate : Uri → Except FetchError Unit)
    (client : OutboundRequest → Except FetchError NetResponse)
    (start : Nat) (r : Resolved) (url : String) (uri : Uri) (m : Method) :
    List Event × Except FetchError ResponseData :=
  match gate uri with
  | .error e => ([.gateCall uri], .error e)
  | .ok _ =>
    match extraHeaders r.headers with
    | .error e => ([.gateCall uri], .error e)
    | .ok hs =>
      match r.body with
      | .error e => ([.gateCall uri], .error e)
      | .ok b =>
        let req : OutboundRequest := ⟨m, uri, baseHeaders ++ hs, b⟩
        match client req with
        | .error e => ([.gateCall uri, .netDispatch req], .error e)
        | .ok res =>
          ([.gateCall uri, .netDispatch req], .ok ⟨res, m.toString, url, start⟩)

/-- The async block of the fetch closure (`fetch.rs` lines 133-165), with the
event trace of gate calls and network dispatches made observable. -/
def dispatch (parse : String → Except FetchError Uri)
    (gate : Uri → Except FetchError Unit)
    (client : OutboundRequest → Except FetchError NetResponse)
    (start : Nat) (r : Resolved) : List Event × Except FetchError ResponseData :=
  match preGate parse r with
  | .error e => ([], .error e)
  | .ok (url, uri, m) => postGate gate client start r url uri m

/-- One fetch invocation (`fetch.rs` lines 74-165): the start timestamp is
taken at the beginning, resolution runs synchronously, then the async block
dispatches. -/
def fetch (parse : String → Except FetchError Uri)
    (gate : Uri → Except FetchError Unit)
    (client : OutboundRequest → Except FetchError NetResponse)
    (start : Nat) (resource : JSValue) (args : Option JSValue) :
    List Event × Except FetchError ResponseData :=
  dispatch parse gate client start (resolve resource args)

/-- Configuration of the shared HTTP client built once in `init`
(`fetch.rs` lines 45-70): no idle timeout, https-or-http connector, HTTP/1
enabled, no client auth, root certificates from the embedded bundle. -/
structure HttpClientConfig where
  poolIdleTimeout : Option Nat
  httpsOrHttp : Bool
  http1 : Bool
  clientAuth : Bool
deriving DecidableEq, Repr

/-- Translation of `init` (`fetch.rs` lines 24-169): the allow list is
checked first, then the deny list; a captured parse error on either aborts
with a reference error naming the environment variable and carrying the
parse error text; otherwise the client is built and `fetch` is registered
(modelled as returning the client configuration). Each list is
`Option (Except parseError patterns)` mirroring the lazily parsed
`HTTP_ALLOW_LIST` / `HTTP_DENY_LIST` statics. -/
def init (allow deny : Option (Except String (List String))) :
    Except FetchError HttpClientConfig :=
  match allow with
  | some (.error err) =>
    .error (.referenceError
      ("\"LLRT_NET_ALLOW\" env contains an invalid URI: " ++ err))
  | _ =>
    match deny with
    | some (.error err) =>
      .error (.referenceError
        ("\"LLRT_NET_DENY\" env contains an invalid URI: " ++ err))
    | _ => .ok ⟨none, true, true, false⟩

/-- Example URI parser used to instantiate the pipeline on concrete inputs:
it accepts any nonempty text and rejects the empty text. -/
def parseNonempty : String → Except FetchError Uri := fun s =>
  if s = "" then .error (.typeError "invalid uri") else .ok ⟨s⟩

/-- Example access gate admitting every URI. -/
def gateAllowAll : Uri → Except FetchError Unit := fun _ => .ok ()

/-- Example access gate rejecting every URI. -/
def gateDenyAll : Uri → Except FetchError Unit := fun _ =>
  .error (.typeError "URL is denied")

/-- Example client answering every request with a status-200 response. -/
def clientConst : OutboundRequest → Except FetchError NetResponse := fun _ => .ok ⟨200⟩

/-! Helper lemmas shared by the claim proofs. -/

/-- Success of the pre-gate stages is equivalent to: the URL candidate is a
present success, the parse succeeds, and the method resolution succeeded. -/
theorem preGate_ok_iff (parse : String → Except FetchError Uri) (r : Resolved)
    (url : String) (uri : Uri) (m : Method) :
    preGate parse r = .ok (url, uri, m) ↔
      r.url = some (.ok url) ∧ parse url = .ok uri ∧ r.method = .ok m := by
  unfold preGate
  cases hu : r.url with
  | none => simp
  | some x =>
    cases x with
    | error e => simp
    | ok u =>
      simp only [Option.getD_some, Option.some.injEq, Except.ok.injEq]
      constructor
      · intro h
        cases hp : parse u with
        | error e => rw [hp] at h; simp at h
        | ok uri2 =>
          rw [hp] at h
          cases hm : r.method with
          | error e => rw [hm] at h; simp at h
          | ok m2 =>
            rw [hm] at h
            simp only [Except.ok.injEq, Prod.mk.injEq] at h
            obtain ⟨h1, h2, h3⟩ := h
            subst h1; subst h2; subst h3
            exact ⟨rfl, hp, rfl⟩
      · rintro ⟨h1, h2, h3⟩
        subst h1
        rw [h2, h3]

/-- A missing URL candidate makes the pre-gate stage fail with the
missing-url reference error. -/
theorem preGate_missing (parse : String → Except FetchError Uri) (r : Resolved)
    (h : r.url = none) :
    preGate parse r = .error (.referenceError "Missing required url") := by
  unfold preGate
  rw [h]
  rfl

/-- Complete case analysis of a fetch invocation: either a pre-gate stage
fails with an empty trace, or the gate is called on the parsed URI and the
outcome is one of gate rejection, headers error, body error, transport
error, or success, with the traces as produced by the code. -/
theorem fetch_cases (parse : String → Except FetchError Uri)
    (gate : Uri → Except FetchError Unit)
    (client : OutboundRequest → Except FetchError NetResponse)
    (start : Nat) (resource : JSValue) (args : Option JSValue) :
    (∃ e, preGate parse (resolve resource args) = .error e ∧
       fetch parse gate client start resource args = ([], .error e)) ∨
    (∃ url uri m, preGate parse (resolve resource args) = .ok (url, uri, m) ∧
      ((∃ e, gate uri = .error e ∧
          fetch parse gate client start resource args = ([.gateCall uri], .error e)) ∨
       (gate uri = .ok () ∧
        ((∃ e, extraHeaders (resolve resource args).headers = .error e ∧
            fetch parse gate client start resource args = ([.gateCall uri], .error e)) ∨
         (∃ hs, extraHeaders (resolve resource args).headers = .ok hs ∧
          ((∃ e, (resolve resource args).body = .error e ∧
              fetch parse gate client start resource args = ([.gateCall uri], .error e)) ∨
           (∃ b, (resolve resource args).body = .ok b ∧
            ((∃ e, client ⟨m, uri, baseHeaders ++ hs, b⟩ = .error e ∧
                fetch parse gate client start resource args =
                  ([.gateCall uri, .netDispatch ⟨m, uri, baseHeaders ++ hs, b⟩], .error e)) ∨
             (∃ res, client ⟨m, uri, baseHeaders ++ hs, b⟩ = .ok res ∧
                fetch parse gate client start resource args =
                  ([.gateCall uri, .netDispatch ⟨m, uri, baseHeaders ++ hs, b⟩],
                   .ok ⟨res, m.toString, url, start⟩)))))))))) := by
  cases hpre : preGate parse (resolve resource args) with
  | error e =>
    refine Or.inl ⟨e, rfl, ?_⟩
    simp only [fetch, dispatch, hpre]
  | ok t =>
    obtain ⟨url, uri, m⟩ := t
    refine Or.inr ⟨url, uri, m, rfl, ?_⟩
    cases hg : gate uri with
    | error e =>
      refine Or.inl ⟨e, rfl, ?_⟩
      simp only [fetch, dispatch, postGate, hpre, hg]
    | ok u =>
      cases u
      refine Or.inr ⟨rfl, ?_⟩
      cases hh : extraHeaders (resolve resource args).headers with
      | error e =>
        refine Or.inl ⟨e, rfl, ?_⟩
        simp only [fetch, dispatch, postGate, hpre, hg, hh]
      | ok hs =>
        refine Or.inr ⟨hs, rfl, ?_⟩
        cases hb : (resolve resource args).body with
        | error e =>
          refine Or.inl ⟨e, rfl, ?_⟩
          simp only [fetch, dispatch, postGate, hpre, hg, hh, hb]
        | ok b =>
          refine Or.inr ⟨b, rfl, ?_⟩
          cases hc : client ⟨m, uri, baseHeaders ++ hs, b⟩ with
          | error e =>
            refine Or.inl ⟨e, rfl, ?_⟩
            simp only [fetch, dispatch, postGate, hpre, hg, hh, hb, hc]
          | ok res =>
            refine Or.inr ⟨res, rfl, ?_⟩
            simp only [fetch, dispatch, postGate, hpre, hg, hh, hb, hc]

/-- A fetch invocation whose resolution produced no URL candidate fails with
the missing-url reference error and an empty event trace, whatever the
parser, gate and client are. -/
theorem fetch_missing_url (parse : String → Except FetchError Uri)
    (gate : Uri → Except FetchError Unit)
    (client : OutboundRequest → Except FetchError NetResponse)
    (start : Nat) (resource : JSValue) (args : Option JSValue)
    (h : (resolve resource args).url = none) :
    fetch parse gate client start resource args =
      ([], .error (.referenceError "Missing required url")) := by
  unfold fetch dispatch
  rw [preGate_missing parse _ h]

/-- Shape of the event trace of a fetch invocation: it is empty exactly when
a pre-gate stage failed; otherwise it starts with the gate call on the
parsed URI and contains at most one further event, a network dispatch of the
fully built request, present only when the gate, the header application and
the body attachment all succeeded. -/
theorem fetch_trace_shape (parse : String → Except FetchError Uri)
    (gate : Uri → Except FetchError Unit)
    (client : OutboundRequest → Except FetchError NetResponse)
    (start : Nat) (resource : JSValue) (args : Option JSValue)
    (trace : List Event) (res : Except FetchError ResponseData)
    (h : fetch parse gate client start resource args = (trace, res)) :
    (trace = [] ∧ ∃ e, preGate parse (resolve resource args) = .error e ∧ res = .error e) ∨
    (∃ url uri m, preGate parse (resolve resource args) = .ok (url, uri, m) ∧
      (trace = [Event.gateCall uri] ∨
       (∃ hs b, gate uri = .ok ()
         ∧ extraHeaders (resolve resource args).headers = .ok hs
         ∧ (resolve resource args).body = .ok b
         ∧ trace = [Event.gateCall uri,
             Event.netDispatch ⟨m, uri, baseHeaders ++ hs, b⟩]))) := by
  rcases fetch_cases parse gate client start resource args with
    ⟨e, hpre, hf⟩ | ⟨url, uri, m, hpre, hrest⟩
  · rw [h] at hf
    simp only [Prod.mk.injEq] at hf
    exact Or.inl ⟨hf.1, e, hpre, hf.2⟩
  · refine Or.inr ⟨url, uri, m, hpre, ?_⟩
    rcases hrest with ⟨e, hg, hf⟩ | ⟨hg, hrest⟩
    · rw [h] at hf
      simp only [Prod.mk.injEq] at hf
      exact Or.inl hf.1
    · rcases hrest with ⟨e, hh, hf⟩ | ⟨hs, hh, hrest⟩
      · rw [h] at hf
        simp only [Prod.mk.injEq] at hf
        exact Or.inl hf.1
      · rcases hrest with ⟨e, hb, hf⟩ | ⟨b, hb, hrest⟩
        · rw [h] at hf
          simp only [Prod.mk.injEq] at hf
          exact Or.inl hf.1
        · rcases hrest with ⟨e, hc, hf⟩ | ⟨resp, hc, hf⟩
          · rw [h] at hf
            simp only [Prod.mk.injEq] at hf
            exact Or.inr ⟨hs, b, hg, hh, hb, hf.1⟩
          · rw [h] at hf
            simp only [Prod.mk.injEq] at hf
            exact Or.inr ⟨hs, b, hg, hh, hb, hf.1⟩

/-! Claim theorems. -/

/-- C2: a captured parse failure on the allow list makes `init` fail with a
reference error naming "LLRT_NET_ALLOW" and carrying the parse error text;
with the allow list clean, a captured parse failure on the deny list makes
`init` fail naming "LLRT_NET_DENY"; in either failing case `init` never
returns the client configuration, so `fetch` is never registered. -/
theorem C2_init_fails_on_bad_policy
    (allow deny : Option (Except String (List String))) :
    (∀ e, allow = some (.error e) →
      init allow deny = .error (.referenceError
        ("\"LLRT_NET_ALLOW\" env contains an invalid URI: " ++ e)))
    ∧ (∀ e, (∀ e', allow ≠ some (.error e')) → deny = some (.error e) →
      init allow deny = .error (.referenceError
        ("\"LLRT_NET_DENY\" env contains an invalid URI: " ++ e)))
    ∧ (∀ e, (allow = some (.error e) ∨ deny = some (.error e)) →
        ∀ cfg, init allow deny ≠ .ok cfg) := by
  refine ⟨?_, ?_, ?_⟩
  · intro e he
    rw [he]
    rfl
  · intro e hne hd
    rw [hd]
    cases ha : allow with
    | none => rfl
    | some x =>
      cases x with
      | error e' => exact absurd ha (hne e')
      | ok l => rfl
  · intro e he cfg hcontra
    rcases he with ha | hd
    · rw [ha] at hcontra
      simp [init] at hcontra
    · rw [hd] at hcontra
      cases ha : allow with
      | none => rw [ha] at hcontra; simp [init] at hcontra
      | some x =>
        cases x with
        | error e' => rw [ha] at hcontra; simp [init] at hcontra
        | ok l => rw [ha] at hcontra; simp [init] at hcontra

/-- C2 witness: a malformed allow list and a malformed deny list each abort
initialization with the reference error naming their source. -/
theorem C2_init_fails_on_bad_policy_witness :
    init (some (.error "bad scheme")) none = .error (.referenceError
      "\"LLRT_NET_ALLOW\" env contains an invalid URI: bad scheme")
    ∧ init none (some (.error "bad port")) = .error (.referenceError
      "\"LLRT_NET_DENY\" env contains an invalid URI: bad port")
    ∧ init (some (.error "x")) none ≠ .ok ⟨none, true, true, false⟩ :=
  ⟨(C2_init_fails_on_bad_policy (some (.error "bad scheme")) none).1 "bad scheme" rfl,
   (C2_init_fails_on_bad_policy none (some (.error "bad port"))).2.1 "bad port"
     (fun e' h => by cases h) rfl,
   (C2_init_fails_on_bad_policy (some (.error "x")) none).2.2 "x" (Or.inl rfl)
     ⟨none, true, true, false⟩⟩

/-- C3: URL source selection is exclusive. With an options-object primary the
secondary object is never consulted for the URL (the result equals the one
with no secondary at all); with a text primary the secondary object's url
field, when present, overrides the text. The two concrete scenarios of the
claim are included. -/
theorem C3_url_source_selection (o o2 : JSObject) (s : String) :
    (resolve (.obj o) (some (.obj o2))).url = (resolve (.obj o) none).url
    ∧ ((resolve (.str s) (some (.obj o2))).url =
        match o2.url with
        | some b => some (.ok b)
        | none => some (.ok s))
    ∧ (resolve (.obj ⟨some "https://a", some "POST", none, none⟩)
        (some (.obj ⟨some "https://b", none, none, none⟩))).url = some (.ok "https://a")
    ∧ (resolve (.str "https://a")
        (some (.obj ⟨some "https://b", none, none, none⟩))).url = some (.ok "https://b") := by
  refine ⟨rfl, ?_, rfl, rfl⟩
  cases h : o2.url with
  | none => simp [resolve, get_url_options, h]
  | some b => simp [resolve, get_url_options, h]

/-- C4 counterexample: for the empty method string the code raises the
invalid-method error naming the empty string itself, not the "\x7bempty\x7d"
placeholder: in the default match arm the matched option is always `some`,
so `unwrap_or` never substitutes the placeholder. -/
theorem C4_empty_method_counterexample :
    resolveMethod (some "") = .error (.typeError "Invalid HTTP method: ")
    ∧ resolveMethod (some "") ≠
        .error (.typeError "Invalid HTTP method: \x7bempty\x7d") :=
  ⟨by decide, by decide⟩

/-- C4 (amended): method resolution maps an absent field and each of the
seven literal strings case-sensitively to the matching method, and every
other string — the empty string included — to an invalid-method type error
naming that exact string. -/
theorem C4_method_resolution :
    resolveMethod none = .ok .GET
    ∧ resolveMethod (some "GET") = .ok .GET
    ∧ resolveMethod (some "POST") = .ok .POST
    ∧ resolveMethod (some "PUT") = .ok .PUT
    ∧ resolveMethod (some "CONNECT") = .ok .CONNECT
    ∧ resolveMethod (some "HEAD") = .ok .HEAD
    ∧ resolveMethod (some "PATCH") = .ok .PATCH
    ∧ resolveMethod (some "DELETE") = .ok .DELETE
    ∧ ∀ s, s ∉ ["GET", "POST", "PUT", "CONNECT", "HEAD", "PATCH", "DELETE"] →
        resolveMethod (some s) = .error (.typeError ("Invalid HTTP method: " ++ s)) := by
  refine ⟨by decide, by decide, by decide, by decide, by decide, by decide,
    by decide, by decide, ?_⟩
  intro s hs
  simp only [List.mem_cons, List.not_mem_nil, or_false, not_or] at hs
  obtain ⟨h1, h2, h3, h4, h5, h6, h7⟩ := hs
  simp [resolveMethod, h1, h2, h3, h4, h5, h6, h7, Option.getD]

/-- C4 witness: the unlisted lowercase string "get" is rejected with the
error naming it. -/
theorem C4_method_resolution_witness :
    "get" ∉ ["GET", "POST", "PUT", "CONNECT", "HEAD", "PATCH", "DELETE"]
    ∧ resolveMethod (some "get") = .error (.typeError "Invalid HTTP method: get") :=
  ⟨by decide,
   C4_method_resolution.2.2.2.2.2.2.2.2 "get" (by decide)⟩

/-- C5: when neither argument yields a URL candidate the invocation fails
with the missing-url reference error and an empty event trace — no URI
parse outcome, no method error, no gate call and no network dispatch can
influence or precede it, as the result is the same for every parser, gate
and client and for every resolved method outcome. -/
theorem C5_missing_url_first (parse : String → Except FetchError Uri)
    (gate : Uri → Except FetchError Unit)
    (client : OutboundRequest → Except FetchError NetResponse)
    (start : Nat) (resource : JSValue) (args : Option JSValue)
    (h : (resolve resource args).url = none) :
    fetch parse gate client start resource args =
      ([], .error (.referenceError "Missing required url")) :=
  fetch_missing_url parse gate client start resource args h

/-- C5 witness: a null primary with no secondary yields no URL candidate,
and the call fails with the missing-url error, with an empty trace, even
under an all-rejecting gate and an empty-rejecting parser. -/
theorem C5_missing_url_first_witness :
    (resolve .null none).url = none
    ∧ fetch parseNonempty gateDenyAll clientConst 0 .null none =
        ([], .error (.referenceError "Missing required url")) :=
  ⟨rfl, C5_missing_url_first parseNonempty gateDenyAll clientConst 0 .null none rfl⟩

/-- C7 counterexample: with an options-object primary (method POST) and a
secondary object (method DELETE, plus headers, body and url fields), none of
the secondary object's fields overrides: the resolved method stays POST, the
url stays the primary's, headers stay absent and the body stays empty. -/
theorem C7_secondary_does_not_override_counterexample :
    (resolve (.obj ⟨some "https://a", some "POST", none, none⟩)
        (some (.obj ⟨some "https://b", some "DELETE",
          some (.good ⟨[("x-k", "x-v")]⟩), some (.good ⟨[1, 2]⟩)⟩))).method = .ok .POST
    ∧ (resolve (.obj ⟨some "https://a", some "POST", none, none⟩)
        (some (.obj ⟨some "https://b", some "DELETE",
          some (.good ⟨[("x-k", "x-v")]⟩), some (.good ⟨[1, 2]⟩)⟩))).method ≠ .ok .DELETE
    ∧ (resolve (.obj ⟨some "https://a", some "POST", none, none⟩)
        (some (.obj ⟨some "https://b", some "DELETE",
          some (.good ⟨[("x-k", "x-v")]⟩), some (.good ⟨[1, 2]⟩)⟩))).url
        = some (.ok "https://a")
    ∧ (resolve (.obj ⟨some "https://a", some "POST", none, none⟩)
        (some (.obj ⟨some "https://b", some "DELETE",
          some (.good ⟨[("x-k", "x-v")]⟩), some (.good ⟨[1, 2]⟩)⟩))).headers = none :=
  ⟨by decide, by decide, by decide, by decide⟩

/-- C7 (amended): when the primary argument is an options object, the
secondary argument is ignored entirely — resolution yields exactly the
result obtained with no secondary argument, so no field of a secondary
object overrides anything. -/
theorem C7_secondary_ignored_when_primary_object (o : JSObject)
    (args : Option JSValue) :
    resolve (.obj o) args = resolve (.obj o) none := rfl

/-- C1: the access gate is called at most once per invocation; every gate
call receives the parsed URI of the resolved URL and happens only after URL
resolution, URI parsing and method resolution all succeeded; whenever those
three succeed the gate is called exactly once; and every network dispatch
happens strictly after a successful gate call — a rejecting gate means the
request is never dispatched. -/
theorem C1_access_gate_once (parse : String → Except FetchError Uri)
    (gate : Uri → Except FetchError Unit)
    (client : OutboundRequest → Except FetchError NetResponse)
    (start : Nat) (resource : JSValue) (args : Option JSValue)
    (trace : List Event) (res : Except FetchError ResponseData)
    (h : fetch parse gate client start resource args = (trace, res)) :
    List.countP Event.isGate trace ≤ 1
    ∧ (∀ uri, Event.gateCall uri ∈ trace →
        ∃ u m, (resolve resource args).url = some (.ok u) ∧ parse u = .ok uri
          ∧ (resolve resource args).method = .ok m)
    ∧ (∀ u uri m, (resolve resource args).url = some (.ok u) → parse u = .ok uri →
        (resolve resource args).method = .ok m →
        List.countP Event.isGate trace = 1 ∧ Event.gateCall uri ∈ trace)
    ∧ (∀ req, Event.netDispatch req ∈ trace →
        ∃ uri, trace = [Event.gateCall uri, Event.netDispatch req] ∧ gate uri = .ok ()) := by
  rcases fetch_trace_shape parse gate client start resource args trace res h with
    ⟨ht, e, hpre, hres⟩ | ⟨url, uri0, m0, hpre, hsh⟩
  · subst ht
    refine ⟨by simp, ?_, ?_, ?_⟩
    · intro uri hmem
      simp at hmem
    · intro u uri m hu hp hm
      have hok : preGate parse (resolve resource args) = .ok (u, uri, m) :=
        (preGate_ok_iff parse (resolve resource args) u uri m).mpr ⟨hu, hp, hm⟩
      rw [hpre] at hok
      simp at hok
    · intro req hmem
      simp at hmem
  · have hfacts := (preGate_ok_iff parse (resolve resource args) url uri0 m0).mp hpre
    have htrace : trace = [Event.gateCall uri0] ∨
        ∃ req, trace = [Event.gateCall uri0, Event.netDispatch req] ∧ gate uri0 = .ok () := by
      rcases hsh with h1 | ⟨hs, b, hg, hh, hb, h2⟩
      · exact Or.inl h1
      · exact Or.inr ⟨_, h2, hg⟩
    refine ⟨?_, ?_, ?_, ?_⟩
    · rcases htrace with ht | ⟨req, ht, hg⟩ <;> subst ht <;> simp [Event.isGate]
    · intro uri hmem
      have heq : uri = uri0 := by
        rcases htrace with ht | ⟨req, ht, hg⟩ <;> subst ht <;> simpa using hmem
      subst heq
      exact ⟨url, m0, hfacts.1, hfacts.2.1, hfacts.2.2⟩
    · intro u uri m hu hp hm
      have hok : preGate parse (resolve resource args) = .ok (u, uri, m) :=
        (preGate_ok_iff parse (resolve resource args) u uri m).mpr ⟨hu, hp, hm⟩
      rw [hpre] at hok
      simp only [Except.ok.injEq, Prod.mk.injEq] at hok
      obtain ⟨-, h2, -⟩ := hok
      subst h2
      rcases htrace with ht | ⟨req, ht, hg⟩ <;> subst ht <;>
        exact ⟨by simp [Event.isGate], by simp⟩
    · intro req hmem
      rcases htrace with ht | ⟨req2, ht, hg⟩
      · subst ht
        simp at hmem
      · subst ht
        simp at hmem
        subst hmem
        exact ⟨uri0, rfl, hg⟩

/-- C1 witness: on a concrete invocation with an all-rejecting gate the
trace is exactly one gate call carrying the parsed URI and no dispatch. -/
theorem C1_access_gate_once_witness :
    fetch parseNonempty gateDenyAll clientConst 1 (.str "https://a") none =
      ([Event.gateCall ⟨"https://a"⟩], .error (.typeError "URL is denied"))
    ∧ (List.countP Event.isGate [Event.gateCall (⟨"https://a"⟩ : Uri)] ≤ 1
      ∧ (∀ uri, Event.gateCall uri ∈ [Event.gateCall (⟨"https://a"⟩ : Uri)] →
          ∃ u m, (resolve (.str "https://a") none).url = some (.ok u)
            ∧ parseNonempty u = .ok uri
            ∧ (resolve (.str "https://a") none).method = .ok m)
      ∧ (∀ u uri m, (resolve (.str "https://a") none).url = some (.ok u) →
          parseNonempty u = .ok uri →
          (resolve (.str "https://a") none).method = .ok m →
          List.countP Event.isGate [Event.gateCall (⟨"https://a"⟩ : Uri)] = 1
            ∧ Event.gateCall uri ∈ [Event.gateCall (⟨"https://a"⟩ : Uri)])
      ∧ (∀ req, Event.netDispatch req ∈ [Event.gateCall (⟨"https://a"⟩ : Uri)] →
          ∃ uri, [Event.gateCall (⟨"https://a"⟩ : Uri)] =
              [Event.gateCall uri, Event.netDispatch req]
            ∧ gateDenyAll uri = .ok ())) :=
  ⟨by decide,
   C1_access_gate_once parseNonempty gateDenyAll clientConst 1 (.str "https://a") none
     [Event.gateCall ⟨"https://a"⟩] (.error (.typeError "URL is denied")) (by decide)⟩

/-- C6: conversion errors of headers and body are deferred: they never
preempt the gate (a rejecting gate wins even with malformed fields), a
stored headers error surfaces exactly when headers are applied — after the
missing-url check, URI parse, method resolution and a successful gate check,
with no network dispatch — and a stored body error surfaces at body
attachment, only once the headers were applied successfully. -/
theorem C6_conversion_errors_deferred (parse : String → Except FetchError Uri)
    (gate : Uri → Except FetchError Unit)
    (client : OutboundRequest → Except FetchError NetResponse)
    (start : Nat) (resource : JSValue) (args : Option JSValue)
    (u : String) (uri : Uri) (m : Method)
    (hu : (resolve resource args).url = some (.ok u))
    (hp : parse u = .ok uri)
    (hm : (resolve resource args).method = .ok m) :
    (∀ e, gate uri = .error e →
        fetch parse gate client start resource args = ([.gateCall uri], .error e))
    ∧ (gate uri = .ok () →
        ∀ e, (resolve resource args).headers = some (.error e) →
          fetch parse gate client start resource args = ([.gateCall uri], .error e))
    ∧ (gate uri = .ok () →
        (∀ e, (resolve resource args).headers ≠ some (.error e)) →
        ∀ e, (resolve resource args).body = .error e →
          fetch parse gate client start resource args = ([.gateCall uri], .error e)) := by
  have hpre : preGate parse (resolve resource args) = .ok (u, uri, m) :=
    (preGate_ok_iff parse (resolve resource args) u uri m).mpr ⟨hu, hp, hm⟩
  refine ⟨?_, ?_, ?_⟩
  · intro e hg
    simp only [fetch, dispatch, postGate, hpre, hg]
  · intro hg e hh
    simp only [fetch, dispatch, postGate, hpre, hg, hh, extraHeaders]
  · intro hg hne e hb
    cases hcase : (resolve resource args).headers with
    | none => simp only [fetch, dispatch, postGate, hpre, hg, hcase, extraHeaders, hb]
    | some x =>
      cases x with
      | error e2 => exact absurd hcase (hne e2)
      | ok hdrs =>
        simp only [fetch, dispatch, postGate, hpre, hg, hcase, extraHeaders, hb]

/-- C6 witness: a primary object with malformed headers and body values
reaches the gate, and the headers error surfaces first, with no dispatch. -/
theorem C6_conversion_errors_deferred_witness :
    (resolve (.obj ⟨some "https://a", none, some (.bad "bad headers"),
        some (.bad "bad body")⟩) none).url = some (.ok "https://a")
    ∧ parseNonempty "https://a" = .ok ⟨"https://a"⟩
    ∧ (resolve (.obj ⟨some "https://a", none, some (.bad "bad headers"),
        some (.bad "bad body")⟩) none).method = .ok .GET
    ∧ gateAllowAll ⟨"https://a"⟩ = .ok ()
    ∧ (resolve (.obj ⟨some "https://a", none, some (.bad "bad headers"),
        some (.bad "bad body")⟩) none).headers = some (.error (.typeError "bad headers"))
    ∧ fetch parseNonempty gateAllowAll clientConst 3
        (.obj ⟨some "https://a", none, some (.bad "bad headers"),
          some (.bad "bad body")⟩) none =
        ([.gateCall ⟨"https://a"⟩], .error (.typeError "bad headers")) :=
  ⟨rfl, by decide, rfl, rfl, rfl,
   (C6_conversion_errors_deferred parseNonempty gateAllowAll clientConst 3
      (.obj ⟨some "https://a", none, some (.bad "bad headers"), some (.bad "bad body")⟩)
      none "https://a" ⟨"https://a"⟩ .GET rfl (by decide) rfl).2.1 rfl
      (.typeError "bad headers") rfl⟩

/-- C8: a successful dispatch yields a response handle carrying the start
timestamp recorded at the beginning of the call, the rendered text of the
dispatched request's method, the url text whose parse is exactly the
dispatched request's URI, and the raw response the client produced for that
request; the elapsed duration from the recorded start to any later end time
is non-negative. -/
theorem C8_roundtrip (parse : String → Except FetchError Uri)
    (gate : Uri → Except FetchError Unit)
    (client : OutboundRequest → Except FetchError NetResponse)
    (start : Nat) (resource : JSValue) (args : Option JSValue)
    (trace : List Event) (rd : ResponseData)
    (h : fetch parse gate client start resource args = (trace, .ok rd)) :
    rd.start = start
    ∧ ∃ req, trace = [Event.gateCall req.uri, Event.netDispatch req]
        ∧ rd.method = req.method.toString
        ∧ (resolve resource args).url = some (.ok rd.url)
        ∧ parse rd.url = .ok req.uri
        ∧ client req = .ok rd.response
        ∧ ∀ endTime, rd.start ≤ endTime → 0 ≤ rd.elapsed endTime := by
  rcases fetch_cases parse gate client start resource args with
    ⟨e, hpre, hf⟩ | ⟨url, uri, m, hpre, hrest⟩
  · rw [h] at hf
    simp only [Prod.mk.injEq] at hf
    exact absurd hf.2 (by simp)
  · have hfacts := (preGate_ok_iff parse (resolve resource args) url uri m).mp hpre
    rcases hrest with ⟨e, hg, hf⟩ | ⟨hg, hrest⟩
    · rw [h] at hf
      simp only [Prod.mk.injEq] at hf
      exact absurd hf.2 (by simp)
    · rcases hrest with ⟨e, hh, hf⟩ | ⟨hs, hh, hrest⟩
      · rw [h] at hf
        simp only [Prod.mk.injEq] at hf
        exact absurd hf.2 (by simp)
      · rcases hrest with ⟨e, hb, hf⟩ | ⟨b, hb, hrest⟩
        · rw [h] at hf
          simp only [Prod.mk.injEq] at hf
          exact absurd hf.2 (by simp)
        · rcases hrest with ⟨e, hc, hf⟩ | ⟨resp, hc, hf⟩
          · rw [h] at hf
            simp only [Prod.mk.injEq] at hf
            exact absurd hf.2 (by simp)
          · rw [h] at hf
            simp only [Prod.mk.injEq, Except.ok.injEq] at hf
            obtain ⟨ht, hr⟩ := hf
            subst hr
            refine ⟨rfl, ⟨m, uri, baseHeaders ++ hs, b⟩, ht, rfl, hfacts.1, ?_, hc, ?_⟩
            · exact hfacts.2.1
            · intro endTime hle
              simp only [ResponseData.elapsed]
              dsimp only at hle ⊢
              omega

/-- C8 witness: a concrete successful exchange returns the handle with the
dispatched method text, url text and the recorded start time. -/
theorem C8_roundtrip_witness :
    fetch parseNonempty gateAllowAll clientConst 5 (.str "https://a") none =
      ([Event.gateCall ⟨"https://a"⟩,
        Event.netDispatch ⟨.GET, ⟨"https://a"⟩, baseHeaders ++ [], Body.empty⟩],
       .ok ⟨⟨200⟩, "GET", "https://a", 5⟩)
    ∧ ((⟨⟨200⟩, "GET", "https://a", 5⟩ : ResponseData).start = 5
      ∧ ∃ req, [Event.gateCall (⟨"https://a"⟩ : Uri),
            Event.netDispatch ⟨.GET, ⟨"https://a"⟩, baseHeaders ++ [], Body.empty⟩] =
            [Event.gateCall req.uri, Event.netDispatch req]
          ∧ (⟨⟨200⟩, "GET", "https://a", 5⟩ : ResponseData).method = req.method.toString
          ∧ (resolve (.str "https://a") none).url =
              some (.ok (⟨⟨200⟩, "GET", "https://a", 5⟩ : ResponseData).url)
          ∧ parseNonempty (⟨⟨200⟩, "GET", "https://a", 5⟩ : ResponseData).url = .ok req.uri
          ∧ clientConst req = .ok (⟨⟨200⟩, "GET", "https://a", 5⟩ : ResponseData).response
          ∧ ∀ endTime, (⟨⟨200⟩, "GET", "https://a", 5⟩ : ResponseData).start ≤ endTime →
              0 ≤ (⟨⟨200⟩, "GET", "https://a", 5⟩ : ResponseData).elapsed endTime) :=
  ⟨by decide,
   C8_roundtrip parseNonempty gateAllowAll clientConst 5 (.str "https://a") none
     [Event.gateCall ⟨"https://a"⟩,
      Event.netDispatch ⟨.GET, ⟨"https://a"⟩, baseHeaders ++ [], Body.empty⟩]
     ⟨⟨200⟩, "GET", "https://a", 5⟩ (by decide)⟩

/-- C9: with a text primary and no secondary options object (no secondary
argument, or one that is not an object), the resolved URL is the primary
text, the method defaults to GET, the body to the empty stream and no
headers are recorded; consequently any dispatched request carries the GET
method, exactly the two fixed headers, and the empty body. -/
theorem C9_no_options_defaults (parse : String → Except FetchError Uri)
    (gate : Uri → Except FetchError Unit)
    (client : OutboundRequest → Except FetchError NetResponse)
    (start : Nat) (s : String) (args : Option JSValue)
    (hargs : ∀ o, args ≠ some (.obj o)) :
    resolve (.str s) args = ⟨some (.ok s), .ok .GET, none, .ok Body.empty⟩
    ∧ ∀ trace res req, fetch parse gate client start (.str s) args = (trace, res) →
        Event.netDispatch req ∈ trace →
        req.method = .GET ∧ req.headers = baseHeaders ∧ req.body = Body.empty := by
  have hres : resolve (.str s) args = ⟨some (.ok s), .ok .GET, none, .ok Body.empty⟩ := by
    cases args with
    | none => rfl
    | some v =>
      cases v with
      | str s2 => rfl
      | obj o => exact absurd rfl (hargs o)
      | num n2 => rfl
      | bool b2 => rfl
      | null => rfl
      | undefined => rfl
  refine ⟨hres, ?_⟩
  intro trace res req h hmem
  rcases fetch_trace_shape parse gate client start (.str s) args trace res h with
    ⟨ht, _⟩ | ⟨url, uri, m, hpre, hsh⟩
  · subst ht
    simp at hmem
  · rcases hsh with ht | ⟨hs2, b, hg, hh, hb, ht⟩
    · subst ht
      simp at hmem
    · subst ht
      simp at hmem
      subst hmem
      have hm : m = .GET := by
        have hx := ((preGate_ok_iff parse (resolve (.str s) args) url uri m).mp hpre).2.2
        rw [hres] at hx
        simpa using hx.symm
      have hhs : hs2 = [] := by
        rw [hres] at hh
        simpa [extraHeaders] using hh.symm
      have hbb : b = Body.empty := by
        rw [hres] at hb
        simpa using hb.symm
      subst hm
      subst hhs
      subst hbb
      exact ⟨rfl, by simp, rfl⟩

/-- C9 witness: the claim's example, a text primary and no secondary. -/
theorem C9_no_options_defaults_witness :
    resolve (.str "https://example.com/a") none =
      ⟨some (.ok "https://example.com/a"), .ok .GET, none, .ok Body.empty⟩
    ∧ ∀ trace res req,
        fetch parseNonempty gateAllowAll clientConst 0 (.str "https://example.com/a") none =
          (trace, res) →
        Event.netDispatch req ∈ trace →
        req.method = .GET ∧ req.headers = baseHeaders ∧ req.body = Body.empty :=
  C9_no_options_defaults parseNonempty gateAllowAll clientConst 0 "https://example.com/a"
    none (fun o hcontra => Option.noConfusion hcontra)

/-- C10: a primary argument that is neither text nor an object raises no
classification error: it yields no URL candidate and no options object, a
secondary options object alone supplies url, method, headers and body, and
without a secondary-supplied url the call fails with the missing-url
reference error before any gate call or dispatch. -/
theorem C10_other_primary_ignored (parse : String → Except FetchError Uri)
    (gate : Uri → Except FetchError Unit)
    (client : OutboundRequest → Except FetchError NetResponse)
    (start : Nat) (n : Int) (bv : Bool) (o : JSObject) :
    get_url_options (.num n) = (none, none)
    ∧ get_url_options (.bool bv) = (none, none)
    ∧ get_url_options .null = (none, none)
    ∧ get_url_options .undefined = (none, none)
    ∧ resolve (.num n) (some (.obj o)) = resolve .undefined (some (.obj o))
    ∧ (resolve (.num n) (some (.obj o))).url = o.url.map (fun u => Except.ok u)
    ∧ (resolve (.num n) (some (.obj o))).method = resolveMethod o.method
    ∧ (resolve (.num n) (some (.obj o))).headers =
        o.headers.map (fun hv => Headers.from_value hv)
    ∧ (resolve (.num n) (some (.obj o))).body =
        (match o.body with
         | some bv2 => get_bytes bv2
         | none => .ok Body.empty)
    ∧ (o.url = none →
        fetch parse gate client start (.num n) (some (.obj o)) =
          ([], .error (.referenceError "Missing required url"))) := by
  refine ⟨rfl, rfl, rfl, rfl, rfl, ?_, rfl, rfl, ?_, ?_⟩
  · cases hcase : o.url with
    | none => simp [resolve, get_url_options, hcase]
    | some u => simp [resolve, get_url_options, hcase]
  · cases hcase : o.body with
    | none => simp [resolve, get_url_options, hcase]
    | some bv2 => simp [resolve, get_url_options, hcase]
  · intro hnone
    apply fetch_missing_url
    simp [resolve, get_url_options, hnone]

/-- C10 witness: a numeric primary with a secondary object lacking url is
silently ignored and the call fails with the missing-url error. -/
theorem C10_other_primary_ignored_witness :
    (⟨none, some "PUT", none, none⟩ : JSObject).url = none
    ∧ fetch parseNonempty gateAllowAll clientConst 2 (.num 7)
        (some (.obj ⟨none, some "PUT", none, none⟩)) =
        ([], .error (.referenceError "Missing required url")) :=
  ⟨rfl,
   (C10_other_primary_ignored parseNonempty gateAllowAll clientConst 2 7 true
     ⟨none, some "PUT", none, none⟩).2.2.2.2.2.2.2.2.2 rfl⟩

end LlrtFetch
